import Mathlib

set_option maxRecDepth 16384
set_option maxHeartbeats 1600000
set_option linter.unreachableTactic false
set_option linter.unusedTactic false
set_option linter.unnecessarySimpa false

/-!
Verification of the LifePush progression engine: XP awarding with a daily cap,
the level threshold table, the per-category habit update handlers, the lazy
streak backfill with shields, and the mascot evolution / badge logic.

Each definition is a shallow embedding of the corresponding JavaScript
function.  JavaScript numbers are modelled as `Int` (all arithmetic the code
performs on them is integer arithmetic, except the sleep-hours rounding which
is modelled exactly in tenths of an hour); SQL `NULL`-able columns are
modelled as `Option`; rows that may be absent are `Option` of a structure;
handlers that can answer HTTP 400 return `Except String`.
-/

namespace LifePush

/-! ### src/utils/xp.js -/

/-- `DAILY_XP_CAP` from src/utils/xp.js. -/
def DAILY_XP_CAP : Int := 150

/-- One step `Math.round(prevIncrement * 1.2)` of the threshold builder.
For a natural `n`, `n * 1.2 = 6n/5` has fractional part in `{0, .2, .4, .6, .8}`,
never `.5`, and for all reachable magnitudes the double-precision evaluation
agrees with exact rounding to nearest, which is `(6n + 2) / 5` in `Nat`
division. -/
def roundTimes12 (n : Nat) : Nat := (6 * n + 2) / 5

/-- The loop body of `buildLevelThresholds` (src/utils/xp.js): starting from
the previous threshold `last` and previous increment `inc`, produce the next
`count` thresholds, each time growing the increment by 20% (rounded). -/
def thresholdsFrom : Nat → Nat → Nat → List Nat
  | 0, _, _ => []
  | count + 1, last, inc =>
    let inc' := roundTimes12 inc
    let next := last + inc'
    next :: thresholdsFrom count next inc'

/-- `buildLevelThresholds(maxLevel)` from src/utils/xp.js: seeds
`[0, 500, 1200]` for levels 1..3, then appends thresholds for levels
4..maxLevel with the 20%-growing increment (initially `700 = 1200 - 500`). -/
def buildLevelThresholds (maxLevel : Nat) : List Nat :=
  [0, 500, 1200] ++ thresholdsFrom (maxLevel - 3) 1200 700

/-- `LEVEL_THRESHOLDS = buildLevelThresholds()` with the default
`maxLevel = 100` (src/utils/xp.js). -/
def LEVEL_THRESHOLDS : List Nat := buildLevelThresholds 100

/-- The `for` loop of `getLevelForXp` (src/utils/xp.js): scanning thresholds
for levels `level + 1, level + 2, ...`; while `xp` reaches the threshold the
level advances, at the first miss the loop breaks. -/
def getLevelForXpAux (xp : Int) : List Nat → Nat → Nat
  | [], level => level
  | t :: rest, level =>
    if (t : Int) ≤ xp then getLevelForXpAux xp rest (level + 1) else level

/-- `getLevelForXp(xp)` from src/utils/xp.js: starts at level 1 and scans
`LEVEL_THRESHOLDS` from index 1. -/
def getLevelForXp (xp : Int) : Nat :=
  getLevelForXpAux xp (LEVEL_THRESHOLDS.drop 1) 1

/-- `capDailyXp(currentDayXp, proposedDelta)` from src/utils/xp.js.  (The
source additionally coalesces a `null` `currentDayXp` to `0`; every caller
passes `existing?.xp_earned ?? 0`, an integer, which is what this embedding
takes.) -/
def capDailyXp (currentDayXp proposedDelta : Int) : Int :=
  if proposedDelta ≤ 0 then 0
  else min proposedDelta (max 0 (DAILY_XP_CAP - currentDayXp))

/-! ### Data model: `daily_logs` row, `users` progression columns -/

/-- The columns of a `daily_logs` row that the habit handlers read or write
(src/db/index.js: base table plus the US-012..US-016 migration columns).
Field defaults mirror the SQL column defaults, which apply when a handler's
INSERT omits the column.  Sleep times are minutes since midnight (the source
stores `HH:MM` strings and always converts via `sh * 60 + sm`); `sleep_hours`
is stored in tenths of an hour (the source stores a REAL rounded to one
decimal). -/
structure DailyLog where
  steps : Option Int := none
  steps_manual : Option Int := none
  steps_google_fit : Option Int := none
  steps_goal_xp_awarded : Int := 0
  steps_last_bonus_at : Option Int := none
  hydration_glasses : Option Int := none
  hydration_xp_glasses : Int := 0
  hydration_goal_xp_awarded : Int := 0
  sleep_start : Option Nat := none
  sleep_end : Option Nat := none
  sleep_hours_tenths : Option Int := none
  sleep_xp_start_awarded : Int := 0
  sleep_xp_end_awarded : Int := 0
  sleep_goal_xp_awarded : Int := 0
  movement_done : Int := 0
  movement_xp_awarded : Int := 0
  vegetables_count : Option Int := none
  food_vegetables : Int := 0
  food_no_junk : Int := 0
  food_breakfast : Int := 0
  food_veg_xp_awarded : Int := 0
  food_nojunk_xp_awarded : Int := 0
  food_breakfast_xp_awarded : Int := 0
  xp_earned : Int := 0
  deriving DecidableEq

/-- The `users` columns touched by `applyXpToUser` (src/routes/habits.js). -/
structure User where
  xp_total : Int
  level : Nat
  deriving DecidableEq

/-- The per-user, per-date mutable state a habit update touches: today's
`daily_logs` row (if any) and the user's XP/level columns. -/
structure HabitsState where
  log : Option DailyLog
  user : User
  deriving DecidableEq

/-- The `daily_steps` / `hydration_glasses` goal columns of `habits_config`
(both NOT NULL); the row itself may be absent. -/
structure GoalsConfig where
  daily_steps : Int
  hydration_glasses : Int
  deriving DecidableEq

/-- The result object of `applyXpToUser`:
`{ previousLevel, newLevel, leveledUp }`. -/
structure LevelUpInfo where
  previousLevel : Option Nat
  newLevel : Option Nat
  leveledUp : Bool
  deriving DecidableEq

/-- `applyXpToUser(userId, xpDelta)` from src/routes/habits.js: no-op for a
non-positive delta, otherwise adds the delta to `xp_total` and recomputes
`level` via `getLevelForXp`. -/
def applyXpToUser (user : User) (xpDelta : Int) : User × LevelUpInfo :=
  if xpDelta ≤ 0 then (user, ⟨none, none, false⟩)
  else
    let previousLevel := user.level
    let newXpTotal := user.xp_total + xpDelta
    let newLevel := getLevelForXp newXpTotal
    ({ xp_total := newXpTotal, level := newLevel },
     ⟨some previousLevel, some newLevel, decide (previousLevel < newLevel)⟩)

/-! ### src/routes/habits.js constants -/

def MAX_MANUAL_STEPS : Int := 50000
def STEP_BONUS_INCREMENT : Int := 500
def STEP_BONUS_XP : Int := 5
def TWO_HOURS_MS : Int := 2 * 60 * 60 * 1000
def MOVEMENT_XP : Int := 15
def HYDRATION_GLASS_XP : Int := 5
def HYDRATION_GOAL_BONUS_XP : Int := 20
def SLEEP_LOG_XP : Int := 5
def SLEEP_GOAL_BONUS_XP : Int := 15
def SLEEP_GOAL_HOURS : Int := 7

/-! ### Movement handler -/

/-- `handleMovementUpdate` (src/routes/habits.js): one-time 15 XP when
movement is first marked done on a day; the `movement_xp_awarded` flag is
never cleared.  Returns the new state and the (capped) awarded XP delta
reported as `xpAwarded`. -/
def handleMovementUpdate (st : HabitsState) (value : Bool) : HabitsState × Int :=
  let existing := st.log
  let done := value
  let processedValue : Int := if done then 1 else 0
  let prevXpAwarded : Int := (existing.map DailyLog.movement_xp_awarded).getD 0
  let newXpAwarded : Int := if done ∧ prevXpAwarded = 0 then 1 else prevXpAwarded
  let rawXpDelta : Int :=
    if newXpAwarded = 1 ∧ prevXpAwarded = 0 then MOVEMENT_XP else 0
  let currentDayXp : Int := (existing.map DailyLog.xp_earned).getD 0
  let xpDelta := capDailyXp currentDayXp rawXpDelta
  let base := existing.getD {}
  let log' : DailyLog := { base with
    movement_done := processedValue,
    movement_xp_awarded := newXpAwarded,
    xp_earned := if 0 < xpDelta then currentDayXp + xpDelta else base.xp_earned }
  let user' := if 0 < xpDelta then (applyXpToUser st.user xpDelta).1 else st.user
  (⟨some log', user'⟩, xpDelta)

/-! ### Hydration handler -/

/-- `glassXpDelta` of `handleHydrationUpdate` (src/routes/habits.js):
`Math.max(0, newXpGlasses - prevXpGlasses) * HYDRATION_GLASS_XP`. -/
def hydrationGlassXpDelta (prevXpGlasses newXpGlasses : Int) : Int :=
  max 0 (newXpGlasses - prevXpGlasses) * HYDRATION_GLASS_XP

/-- Body of `handleHydrationUpdate` (src/routes/habits.js) after input
validation: per-glass XP above the day's stored high-water mark
`hydration_xp_glasses`, plus a one-time 20 XP bonus when the goal is met. -/
def hydrationUpdateCore (goals : Option GoalsConfig) (st : HabitsState)
    (glasses : Int) : HabitsState × Int :=
  let hydrationGoal := (goals.map GoalsConfig.hydration_glasses).getD 8
  let existing := st.log
  let prevXpGlasses := (existing.map DailyLog.hydration_xp_glasses).getD 0
  let newXpGlasses := max prevXpGlasses glasses
  let glassXpDelta := hydrationGlassXpDelta prevXpGlasses newXpGlasses
  let prevGoalAwarded := (existing.map DailyLog.hydration_goal_xp_awarded).getD 0
  let goalMet := hydrationGoal ≤ glasses
  let newGoalAwarded := if goalMet ∧ prevGoalAwarded = 0 then 1 else prevGoalAwarded
  let goalXpDelta : Int :=
    if newGoalAwarded = 1 ∧ prevGoalAwarded = 0 then HYDRATION_GOAL_BONUS_XP else 0
  let rawXpDelta := glassXpDelta + goalXpDelta
  let currentDayXp := (existing.map DailyLog.xp_earned).getD 0
  let xpDelta := capDailyXp currentDayXp rawXpDelta
  let base := existing.getD {}
  let log' : DailyLog := { base with
    hydration_glasses := some glasses,
    hydration_xp_glasses := newXpGlasses,
    hydration_goal_xp_awarded := newGoalAwarded,
    xp_earned := if 0 < xpDelta then currentDayXp + xpDelta else base.xp_earned }
  let user' := if 0 < xpDelta then (applyXpToUser st.user xpDelta).1 else st.user
  (⟨some log', user'⟩, xpDelta)

/-- `handleHydrationUpdate` (src/routes/habits.js) including its 400-range
check (`isNaN(glasses) || glasses < 0`; the NaN case is excluded by typing the
parsed value as `Int`). -/
def handleHydrationUpdate (goals : Option GoalsConfig) (st : HabitsState)
    (glasses : Int) : Except String (HabitsState × Int) :=
  if glasses < 0 then .error "hydration value must be a non-negative integer."
  else .ok (hydrationUpdateCore goals st glasses)

/-! ### Sleep handler -/

/-- The one-decimal rounding `Math.round((diffMin / 60) * 10) / 10` of the
sleep-hours computation, expressed in tenths of an hour.  `diffMin / 6` has a
`.5` fractional part only for `diffMin ≡ 3 (mod 6)`, where the
double-precision evaluation rounds up, matching `(diffMin + 3) / 6`. -/
def sleepHoursTenthsOfMin (diffMin : Int) : Int := (diffMin + 3) / 6

/-- The auto-calculation of `sleepHours` in `handleSleepUpdate`
(src/routes/habits.js): when both times are present, the duration in minutes
(wrapping across midnight when end < start) rounded to tenths of an hour;
otherwise `null`. -/
def computeSleepHours (effectiveStart effectiveEnd : Option Nat) : Option Int :=
  match effectiveStart, effectiveEnd with
  | some s, some e =>
    let startMin : Int := s
    let endMin : Int := e
    let diffMin :=
      if startMin ≤ endMin then endMin - startMin
      else 1440 - startMin + endMin
    some (sleepHoursTenthsOfMin diffMin)
  | _, _ => none

/-- Body of `handleSleepUpdate` (src/routes/habits.js) after input validation:
start/end minutes merge with the stored ones, hours are recomputed when both
are present (wrapping across midnight), and three one-shot awards (start log
5 XP, end log 5 XP, ≥ 7 h goal 15 XP) are summed before capping. -/
def sleepUpdateCore (st : HabitsState) (sleepStart sleepEnd : Option Nat) :
    HabitsState × Int :=
  let existing := st.log
  let effectiveStart := sleepStart <|> existing.bind DailyLog.sleep_start
  let effectiveEnd := sleepEnd <|> existing.bind DailyLog.sleep_end
  let sleepHours := computeSleepHours effectiveStart effectiveEnd
  let prevStartAwarded := (existing.map DailyLog.sleep_xp_start_awarded).getD 0
  let newStartAwarded :=
    if effectiveStart.isSome ∧ prevStartAwarded = 0 then 1 else prevStartAwarded
  let dStart : Int :=
    if newStartAwarded = 1 ∧ prevStartAwarded = 0 then SLEEP_LOG_XP else 0
  let prevEndAwarded := (existing.map DailyLog.sleep_xp_end_awarded).getD 0
  let newEndAwarded :=
    if effectiveEnd.isSome ∧ prevEndAwarded = 0 then 1 else prevEndAwarded
  let dEnd : Int :=
    if newEndAwarded = 1 ∧ prevEndAwarded = 0 then SLEEP_LOG_XP else 0
  let prevGoalAwarded := (existing.map DailyLog.sleep_goal_xp_awarded).getD 0
  let goalMet := sleepHours.any (fun h => decide (SLEEP_GOAL_HOURS * 10 ≤ h))
  let newGoalAwarded :=
    if goalMet ∧ prevGoalAwarded = 0 then 1 else prevGoalAwarded
  let dGoal : Int :=
    if newGoalAwarded = 1 ∧ prevGoalAwarded = 0 then SLEEP_GOAL_BONUS_XP else 0
  let rawXpDelta := dStart + dEnd + dGoal
  let currentDayXp := (existing.map DailyLog.xp_earned).getD 0
  let xpDelta := capDailyXp currentDayXp rawXpDelta
  let base := existing.getD {}
  let log' : DailyLog := { base with
    sleep_xp_start_awarded := newStartAwarded,
    sleep_xp_end_awarded := newEndAwarded,
    sleep_goal_xp_awarded := newGoalAwarded,
    sleep_start := if effectiveStart.isSome then effectiveStart else base.sleep_start,
    sleep_end := if effectiveEnd.isSome then effectiveEnd else base.sleep_end,
    sleep_hours_tenths := if sleepHours.isSome then sleepHours else base.sleep_hours_tenths,
    xp_earned := if 0 < xpDelta then currentDayXp + xpDelta else base.xp_earned }
  let user' := if 0 < xpDelta then (applyXpToUser st.user xpDelta).1 else st.user
  (⟨some log', user'⟩, xpDelta)

/-- `handleSleepUpdate` (src/routes/habits.js) including its 400 checks: at
least one of the two times must be supplied, and each supplied time must be a
valid `HH:MM` wall-clock time (modelled as minutes `< 1440`). -/
def handleSleepUpdate (st : HabitsState) (sleepStart sleepEnd : Option Nat) :
    Except String (HabitsState × Int) :=
  if sleepStart = none ∧ sleepEnd = none then
    .error "At least one of sleepStart or sleepEnd (HH:MM format) is required."
  else if sleepStart.any (fun t => decide (1440 ≤ t)) then
    .error "sleepStart must be in HH:MM format (00:00–23:59)."
  else if sleepEnd.any (fun t => decide (1440 ≤ t)) then
    .error "sleepEnd must be in HH:MM format (00:00–23:59)."
  else .ok (sleepUpdateCore st sleepStart sleepEnd)

/-! ### Food handler -/

/-- The three food checklist items (`FOOD_HABITS` keys in
src/routes/habits.js). -/
inductive FoodItem where
  | vegetables
  | no_junk
  | breakfast
  deriving DecidableEq

/-- `FOOD_HABITS[item].xp` (src/routes/habits.js). -/
def foodItemXp : FoodItem → Int
  | .vegetables => 10
  | .no_junk => 10
  | .breakfast => 5

/-- Read the `FOOD_HABITS[item].xpCol` award flag of a row. -/
def foodXpAwarded (l : DailyLog) : FoodItem → Int
  | .vegetables => l.food_veg_xp_awarded
  | .no_junk => l.food_nojunk_xp_awarded
  | .breakfast => l.food_breakfast_xp_awarded

/-- Write the `FOOD_HABITS[item].col` checkbox value and `xpCol` award flag
of a row. -/
def setFoodFields (base : DailyLog) : FoodItem → Int → Int → DailyLog
  | .vegetables, v, a => { base with food_vegetables := v, food_veg_xp_awarded := a }
  | .no_junk, v, a => { base with food_no_junk := v, food_nojunk_xp_awarded := a }
  | .breakfast, v, a => { base with food_breakfast := v, food_breakfast_xp_awarded := a }

/-- `handleFoodUpdate` (src/routes/habits.js): each checkbox awards its XP
once per day; unchecking never revokes XP.  The `item`/`checked` validation
is typed away (`FoodItem` and `Bool` admit exactly the accepted values). -/
def handleFoodUpdate (st : HabitsState) (item : FoodItem) (checked : Bool) :
    HabitsState × Int :=
  let existing := st.log
  let done := checked
  let processedValue : Int := if done then 1 else 0
  let prevXpAwarded : Int := (existing.map (fun l => foodXpAwarded l item)).getD 0
  let newXpAwarded : Int := if done ∧ prevXpAwarded = 0 then 1 else prevXpAwarded
  let rawXpDelta : Int :=
    if newXpAwarded = 1 ∧ prevXpAwarded = 0 then foodItemXp item else 0
  let currentDayXp : Int := (existing.map DailyLog.xp_earned).getD 0
  let xpDelta := capDailyXp currentDayXp rawXpDelta
  let base := existing.getD {}
  let log' : DailyLog := { setFoodFields base item processedValue newXpAwarded with
    xp_earned := if 0 < xpDelta then currentDayXp + xpDelta else base.xp_earned }
  let user' := if 0 < xpDelta then (applyXpToUser st.user xpDelta).1 else st.user
  (⟨some log', user'⟩, xpDelta)

/-! ### Steps handler -/

/-- The step source (`"manual" | "google_fit"`); any other source string is a
400 upstream. -/
inductive StepSource where
  | manual
  | google_fit
  deriving DecidableEq

/-- The incremental manual-logging bonus block of `handleStepsUpdate`
(src/routes/habits.js): +5 XP when the manual count rises by ≥ 500 and at
least 2 h (in ms) have passed since `steps_last_bonus_at` (a missing
timestamp counts as epoch 0); the timestamp is refreshed only when the bonus
fires.  Returns the bonus XP and the new timestamp. -/
def stepsBonusUpdate (source : StepSource) (steps prevManual : Int)
    (lastBonusAt : Option Int) (nowMs : Int) : Int × Option Int :=
  match source with
  | .google_fit => (0, lastBonusAt)
  | .manual =>
    let stepIncrease := steps - prevManual
    let lastBonusMs := lastBonusAt.getD 0
    if STEP_BONUS_INCREMENT ≤ stepIncrease ∧ TWO_HOURS_MS ≤ nowMs - lastBonusMs
    then (STEP_BONUS_XP, some nowMs)
    else (0, lastBonusAt)

/-- Body of `handleStepsUpdate` (src/routes/habits.js) after input
validation: per-source columns update, effective steps are
`max(manual, google_fit)` with absent sources as 0, the goal award (20 XP
for a 5000-step goal, 40 XP otherwise) fires once per day, and the manual
+5 bonus is added before capping. -/
def stepsUpdateCore (goals : Option GoalsConfig) (st : HabitsState)
    (steps : Int) (source : StepSource) (nowMs : Int) : HabitsState × Int :=
  let stepGoal := (goals.map GoalsConfig.daily_steps).getD 10000
  let goalXp : Int := if stepGoal = 5000 then 20 else 40
  let existing := st.log
  let prevManual := (existing.bind DailyLog.steps_manual).getD 0
  let newManual :=
    match source with
    | .manual => some steps
    | .google_fit => existing.bind DailyLog.steps_manual
  let newGoogleFit :=
    match source with
    | .google_fit => some steps
    | .manual => existing.bind DailyLog.steps_google_fit
  let effectiveSteps := max (newManual.getD 0) (newGoogleFit.getD 0)
  let prevGoalXpAwarded := (existing.map DailyLog.steps_goal_xp_awarded).getD 0
  let newGoalXpAwarded :=
    if stepGoal ≤ effectiveSteps ∧ prevGoalXpAwarded = 0 then 1
    else prevGoalXpAwarded
  let goalDelta : Int :=
    if newGoalXpAwarded = 1 ∧ prevGoalXpAwarded = 0 then goalXp else 0
  let bonus := stepsBonusUpdate source steps prevManual
    (existing.bind DailyLog.steps_last_bonus_at) nowMs
  let rawXpDelta := goalDelta + bonus.1
  let currentDayXp := (existing.map DailyLog.xp_earned).getD 0
  let xpDelta := capDailyXp currentDayXp rawXpDelta
  let base := existing.getD {}
  let log' : DailyLog := { base with
    steps := some effectiveSteps,
    steps_goal_xp_awarded := newGoalXpAwarded,
    steps_last_bonus_at := bonus.2,
    steps_manual :=
      match source with
      | .manual => newManual
      | .google_fit => base.steps_manual,
    steps_google_fit :=
      match source with
      | .google_fit => newGoogleFit
      | .manual => base.steps_google_fit,
    xp_earned := if 0 < xpDelta then currentDayXp + xpDelta else base.xp_earned }
  let user' := if 0 < xpDelta then (applyXpToUser st.user xpDelta).1 else st.user
  (⟨some log', user'⟩, xpDelta)

/-- `handleStepsUpdate` (src/routes/habits.js) including its 400 checks
(negative value; manual entries above 50,000; the invalid-source and NaN
branches are excluded by typing). -/
def handleStepsUpdate (goals : Option GoalsConfig) (st : HabitsState)
    (steps : Int) (source : StepSource) (nowMs : Int) :
    Except String (HabitsState × Int) :=
  if steps < 0 then .error "steps value must be a non-negative integer."
  else if source = .manual ∧ MAX_MANUAL_STEPS < steps then
    .error "Manual step entries are capped at 50,000 steps/day."
  else .ok (stepsUpdateCore goals st steps source nowMs)

/-! ### One category update, and sequences of them -/

/-- One habit category update request, with its (pre-validated typed) payload;
the steps variant also carries the request wall-clock in ms. -/
inductive HabitOp where
  | steps (value : Int) (source : StepSource) (nowMs : Int)
  | hydration (value : Int)
  | sleep (sleepStart sleepEnd : Option Nat)
  | movement (value : Bool)
  | food (item : FoodItem) (checked : Bool)

/-- Dispatch of `PATCH /api/habits/today/:category` (src/routes/habits.js) to
the per-category handler.  Handlers without runtime-checked numeric input are
total and wrapped in `.ok`. -/
def applyOp (goals : Option GoalsConfig) (st : HabitsState) :
    HabitOp → Except String (HabitsState × Int)
  | .steps v src now => handleStepsUpdate goals st v src now
  | .hydration v => handleHydrationUpdate goals st v
  | .sleep s e => handleSleepUpdate st s e
  | .movement v => .ok (handleMovementUpdate st v)
  | .food item checked => .ok (handleFoodUpdate st item checked)

/-- Run a sequence of category updates; a rejected (400) update leaves the
state untouched. -/
def runOps (goals : Option GoalsConfig) : List HabitOp → HabitsState → HabitsState
  | [], st => st
  | op :: rest, st =>
    runOps goals rest
      (match applyOp goals st op with
       | .ok (st', _) => st'
       | .error _ => st)

/-- The ledger's `xp_earned` for the day: 0 when no row exists yet. -/
def ledgerXp (st : HabitsState) : Int := (st.log.map DailyLog.xp_earned).getD 0

/-! ### src/utils/streak.js -/

/-- `countCompletedCategories(userId, dateStr)` (src/utils/streak.js) for one
user, reading the day's `daily_logs` row (if any) and the user's
`habits_config` goals (defaults 10,000 steps / 8 glasses when absent):
counts how many of the 5 categories were completed.  `sleep_hours >= 7` is
`70` in stored tenths. -/
def countCompletedCategories (log? : Option DailyLog)
    (goals : Option GoalsConfig) : Nat :=
  match log? with
  | none => 0
  | some log =>
    (match log.steps with
     | some s => if (goals.map GoalsConfig.daily_steps).getD 10000 ≤ s then 1 else 0
     | none => 0)
    + (match log.hydration_glasses with
       | some hg =>
         if (goals.map GoalsConfig.hydration_glasses).getD 8 ≤ hg then 1 else 0
       | none => 0)
    + (match log.sleep_hours_tenths with
       | some sh => if 70 ≤ sh then 1 else 0
       | none => 0)
    + (if log.movement_done = 1 then 1 else 0)
    + (if log.food_vegetables = 1 ∨ log.food_no_junk = 1 ∨ log.food_breakfast = 1
       then 1 else 0)

def STREAK_THRESHOLD : Nat := 3
def SHIELD_STREAK_INTERVAL : Int := 7
def MAX_SHIELDS : Int := 1

/-- The streak columns of a `users` row that `evaluateStreakIfNeeded`
(src/utils/streak.js) reads and writes.  Calendar dates are modelled as day
numbers (`Int`); the source's `YYYY-MM-DD` strings compare and step by one
day exactly like integers. -/
structure StreakUser where
  streak_last_evaluated_date : Option Int
  current_streak : Int
  longest_streak : Int
  streak_shields : Int
  deriving DecidableEq

/-- One iteration of the backfill `while` loop of `evaluateStreakIfNeeded`
(src/utils/streak.js), given the day's completed-category count: streak
increment plus shield grant, or shield consumption, or reset; then
`longestStreak = max(longestStreak, currentStreak)`.  Returns
`(currentStreak, longestStreak, shields)`. -/
def evalStreakDay (completed : Nat) (currentStreak longestStreak shields : Int) :
    Int × Int × Int :=
  if STREAK_THRESHOLD ≤ completed then
    let c := currentStreak + 1
    let sh :=
      if 0 < c ∧ c % SHIELD_STREAK_INTERVAL = 0 ∧ shields < MAX_SHIELDS
      then shields + 1 else shields
    (c, max longestStreak c, sh)
  else if 0 < shields then
    (currentStreak, max longestStreak currentStreak, shields - 1)
  else
    (0, max longestStreak 0, shields)

/-- The backfill loop over a list of evaluation dates, in order;
`logs` is the user's `daily_logs` table keyed by date. -/
def evalStreakDays (logs : Int → Option DailyLog) (goals : Option GoalsConfig) :
    List Int → Int × Int × Int → Int × Int × Int
  | [], s => s
  | d :: rest, s =>
    evalStreakDays logs goals rest
      (evalStreakDay (countCompletedCategories (logs d) goals) s.1 s.2.1 s.2.2)

/-- The dates `lo, lo+1, ..., hi` visited by
`while (evalDate <= yesterday) { ...; evalDate = addDays(evalDate, 1) }`
starting at `lo` (empty when `lo > hi`). -/
def dateRange (lo hi : Int) : List Int :=
  (List.range (hi + 1 - lo).toNat).map (fun i => lo + i)

/-- `evaluateStreakIfNeeded(userId, timezone)` (src/utils/streak.js): on
first contact only the watermark is set; when the watermark is current it is
a no-op; otherwise every day from `lastEval + 1` through `today - 1` is
evaluated in chronological order and the result plus
`streak_last_evaluated_date = today` is committed. -/
def evaluateStreakIfNeeded (logs : Int → Option DailyLog)
    (goals : Option GoalsConfig) (today : Int) (u : StreakUser) : StreakUser :=
  match u.streak_last_evaluated_date with
  | none => { u with streak_last_evaluated_date := some today }
  | some lastEval =>
    if today ≤ lastEval then u
    else
      let yesterday := today - 1
      let r := evalStreakDays logs goals (dateRange (lastEval + 1) yesterday)
        (u.current_streak, u.longest_streak, u.streak_shields)
      { streak_last_evaluated_date := some today, current_streak := r.1,
        longest_streak := r.2.1, streak_shields := r.2.2 }

/-- A concrete 3-day ledger for the backfill example: day 1 completes 4 of 5
categories, day 2 completes 1 of 5, day 3 completes 5 of 5. -/
def streakExampleLogs : Int → Option DailyLog := fun d =>
  if d = 1 then
    some { steps := some 10000, hydration_glasses := some 8,
           sleep_hours_tenths := some 70, movement_done := 1 }
  else if d = 2 then
    some { movement_done := 1 }
  else if d = 3 then
    some { steps := some 12000, hydration_glasses := some 9,
           sleep_hours_tenths := some 80, movement_done := 1,
           food_breakfast := 1 }
  else none

/-! ### src/utils/mascot.js -/

/-- The five BMI categories with a mascot mapping (the `bmi_category` CHECK
constraint in src/db/index.js). -/
inductive BmiCategory where
  | underweight
  | normal
  | overweight
  | obese_1
  | obese_2
  deriving DecidableEq

/-- One stage entry of `MASCOT_EVOLUTION` (src/utils/mascot.js). -/
structure Mascot where
  id : Int
  name : String
  stage : Nat
  deriving DecidableEq

/-- `MASCOT_EVOLUTION` (src/utils/mascot.js): the 3-stage progression per
BMI category. -/
def MASCOT_EVOLUTION : BmiCategory → List Mascot
  | .underweight =>
    [⟨1, "Baby Flamingo", 1⟩, ⟨11, "Flamingo", 2⟩, ⟨12, "Dancing Flamingo", 3⟩]
  | .normal =>
    [⟨2, "Energetic Fox", 1⟩, ⟨21, "Swift Fox", 2⟩, ⟨22, "Champion Fox", 3⟩]
  | .overweight =>
    [⟨3, "Chunky Bear", 1⟩, ⟨31, "Strong Bear", 2⟩, ⟨32, "Mighty Bear", 3⟩]
  | .obese_1 =>
    [⟨4, "Sleepy Panda", 1⟩, ⟨41, "Active Panda", 2⟩, ⟨42, "Warrior Panda", 3⟩]
  | .obese_2 =>
    [⟨5, "Cozy Sloth", 1⟩, ⟨51, "Speedy Sloth", 2⟩, ⟨52, "Turbo Sloth", 3⟩]

def EVOLUTION_LEVEL_5 : Nat := 5
def EVOLUTION_LEVEL_10 : Nat := 10

/-- `getMascotStageForLevel(level)` (src/utils/mascot.js): stage index 0, 1
or 2. -/
def getMascotStageForLevel (level : Nat) : Nat :=
  if EVOLUTION_LEVEL_10 ≤ level then 2
  else if EVOLUTION_LEVEL_5 ≤ level then 1
  else 0

/-- `getMascotForLevel(bmiCategory, level)` (src/utils/mascot.js): `null`
for an unknown/absent category, otherwise the stage entry for the level. -/
def getMascotForLevel (bmiCategory : Option BmiCategory) (level : Nat) :
    Option Mascot :=
  match bmiCategory with
  | none => none
  | some cat => (MASCOT_EVOLUTION cat).get? (getMascotStageForLevel level)

/-- The mascot-related `users` columns `checkAndApplyEvolution` reads and
writes. -/
structure EvoUser where
  bmi_category : Option BmiCategory
  mascot_id : Option Int
  mascot_name : Option String
  mascot_stage : Option Nat
  deriving DecidableEq

/-- One row of the `badges` table, keyed for uniqueness by its
`badge_type`. -/
structure BadgeRow where
  badge_type : String
  badge_name : String
  deriving DecidableEq

/-- Modelled from the spec: the `badges` table and its
`INSERT OR IGNORE INTO badges ...` semantics.  The table's CREATE TABLE is
absent from the sources (only the inserts in src/utils/mascot.js mention it);
per the spec, "grants are idempotent (granting an already-held badge is a
no-op, not an error)", so the insert is ignored exactly when the user already
holds a badge of the same type. -/
def insertOrIgnoreBadge (badges : List BadgeRow) (b : BadgeRow) :
    List BadgeRow :=
  if badges.any (fun x => decide (x.badge_type = b.badge_type)) then badges
  else badges ++ [b]

/-- The non-null return object of `checkAndApplyEvolution`
(src/utils/mascot.js). -/
structure EvoResult where
  previousMascotId : Option Int
  previousMascotName : Option String
  newMascot : Mascot
  badgeType : String
  badgeName : String
  evolutionLevel : Nat
  deriving DecidableEq

/-- `checkAndApplyEvolution(userId, previousLevel, newLevel)`
(src/utils/mascot.js): no-op unless the level rose across 5 or 10, the user
has a mapped BMI category, and the looked-up mascot differs from the current
one; otherwise updates the mascot columns, inserts the level-5 badge as well
when both thresholds were crossed at once, inserts the badge for the highest
crossed threshold, and returns the evolution info. -/
def checkAndApplyEvolution (u : EvoUser) (badges : List BadgeRow)
    (previousLevel newLevel : Nat) :
    EvoUser × List BadgeRow × Option EvoResult :=
  if newLevel ≤ previousLevel then (u, badges, none)
  else
    let crossedLevel5 :=
      previousLevel < EVOLUTION_LEVEL_5 ∧ EVOLUTION_LEVEL_5 ≤ newLevel
    let crossedLevel10 :=
      previousLevel < EVOLUTION_LEVEL_10 ∧ EVOLUTION_LEVEL_10 ≤ newLevel
    if ¬crossedLevel5 ∧ ¬crossedLevel10 then (u, badges, none)
    else
      match u.bmi_category with
      | none => (u, badges, none)
      | some _ =>
        match getMascotForLevel u.bmi_category newLevel with
        | none => (u, badges, none)
        | some newMascot =>
          if u.mascot_id = some newMascot.id then (u, badges, none)
          else
            let u' := { u with
              mascot_id := some newMascot.id,
              mascot_name := some newMascot.name,
              mascot_stage := some newMascot.stage }
            let badgeType := if crossedLevel10 then "champion" else "evolution_5"
            let badgeName := if crossedLevel10 then "Champion" else "Mascot Evolution"
            let badges1 :=
              if crossedLevel5 ∧ crossedLevel10 then
                insertOrIgnoreBadge badges ⟨"evolution_5", "Mascot Evolution"⟩
              else badges
            let badges2 := insertOrIgnoreBadge badges1 ⟨badgeType, badgeName⟩
            (u', badges2,
             some ⟨u.mascot_id, u.mascot_name, newMascot, badgeType, badgeName,
                   if crossedLevel10 then 10 else 5⟩)

/-- The predicate "this threshold has been reached by `xp`", as a `Bool`. -/
def thresholdReached (xp : Int) (t : Nat) : Bool := decide ((t : Int) ≤ xp)

end LifePush

namespace LifePush

/-! ### Theorems -/

theorem getLevelForXpAux_eq (xp : Int) :
    ∀ (l : List Nat) (lv : Nat),
      getLevelForXpAux xp l lv
        = lv + (l.takeWhile (thresholdReached xp)).length := by
  intro l
  induction l with
  | nil => intro lv; simp [getLevelForXpAux]
  | cons t rest ih =>
    intro lv
    by_cases h : (t : Int) ≤ xp
    · rw [getLevelForXpAux, if_pos h,
        List.takeWhile_cons_of_pos (by simpa [thresholdReached] using h), ih]
      simp
      omega
    · rw [getLevelForXpAux, if_neg h,
        List.takeWhile_cons_of_neg (by simpa [thresholdReached] using h)]
      simp

theorem takeWhileReached_length_mono (xp xp' : Int) (h : xp ≤ xp') :
    ∀ l : List Nat,
      (l.takeWhile (thresholdReached xp)).length
        ≤ (l.takeWhile (thresholdReached xp')).length := by
  intro l
  induction l with
  | nil => simp
  | cons t rest ih =>
    by_cases ht : (t : Int) ≤ xp
    · have ht' : (t : Int) ≤ xp' := le_trans ht h
      rw [List.takeWhile_cons_of_pos (by simpa [thresholdReached] using ht),
        List.takeWhile_cons_of_pos (by simpa [thresholdReached] using ht')]
      simpa using ih
    · rw [List.takeWhile_cons_of_neg (by simpa [thresholdReached] using ht)]
      simp

theorem takeWhileReached_getD (xp : Int) :
    ∀ (l : List Nat) (i : Nat),
      i < (l.takeWhile (thresholdReached xp)).length →
      (l.getD i 0 : Int) ≤ xp := by
  intro l
  induction l with
  | nil => simp
  | cons t rest ih =>
    intro i hi
    by_cases ht : (t : Int) ≤ xp
    · cases i with
      | zero => simpa using ht
      | succ j =>
        rw [List.takeWhile_cons_of_pos
          (by simpa [thresholdReached] using ht)] at hi
        simp only [List.length_cons, Nat.succ_lt_succ_iff] at hi
        simpa using ih j hi
    · rw [List.takeWhile_cons_of_neg (by simpa [thresholdReached] using ht)]
        at hi
      simp at hi

theorem takeWhileReached_boundary (xp : Int) :
    ∀ l : List Nat,
      (l.takeWhile (thresholdReached xp)).length < l.length →
      ¬ ((l.getD (l.takeWhile (thresholdReached xp)).length 0 : Int) ≤ xp) := by
  intro l
  induction l with
  | nil => simp
  | cons t rest ih =>
    intro hlen
    by_cases ht : (t : Int) ≤ xp
    · rw [List.takeWhile_cons_of_pos (by simpa [thresholdReached] using ht)]
        at hlen ⊢
      simp only [List.length_cons, Nat.succ_lt_succ_iff] at hlen
      simpa using ih hlen
    · rw [List.takeWhile_cons_of_neg (by simpa [thresholdReached] using ht)]
      simpa using ht

theorem dropOne_getD (l : List Nat) (i : Nat) :
    (l.drop 1).getD i 0 = l.getD (i + 1) 0 := by
  cases l <;> simp

theorem LEVEL_THRESHOLDS_pairwise : LEVEL_THRESHOLDS.Pairwise (· < ·) := by
  decide

theorem LEVEL_THRESHOLDS_length : LEVEL_THRESHOLDS.length = 100 := by decide

/-- C3: `capDailyXp` returns 0 for a non-positive delta, otherwise
`min proposedDelta (max 0 (150 - currentDayXp))`; `capDailyXp 145 10 = 5`,
`capDailyXp 150 10 = 0`, `capDailyXp 100 (-5) = 0`; and the result always lies
in `[0, max 0 (150 - currentDayXp)]`. -/
theorem C3_capDailyXp_spec :
    (∀ currentDayXp proposedDelta : Int, proposedDelta ≤ 0 →
        capDailyXp currentDayXp proposedDelta = 0)
  ∧ (∀ currentDayXp proposedDelta : Int, 0 < proposedDelta →
        capDailyXp currentDayXp proposedDelta
          = min proposedDelta (max 0 (150 - currentDayXp)))
  ∧ capDailyXp 145 10 = 5 ∧ capDailyXp 150 10 = 0 ∧ capDailyXp 100 (-5) = 0
  ∧ (∀ currentDayXp proposedDelta : Int,
      0 ≤ capDailyXp currentDayXp proposedDelta
        ∧ capDailyXp currentDayXp proposedDelta ≤ max 0 (150 - currentDayXp)) := by
  refine ⟨?_, ?_, by decide, by decide, by decide, ?_⟩
  · intro c p hp
    simp [capDailyXp, hp]
  · intro c p hp
    rw [capDailyXp, if_neg (by omega)]
    rfl
  · intro c p
    unfold capDailyXp DAILY_XP_CAP
    split <;> omega

theorem C3_capDailyXp_spec_witness :
    capDailyXp 7 (-3) = 0
      ∧ capDailyXp 40 25 = min 25 (max 0 (150 - 40))
      ∧ (0 ≤ capDailyXp 140 60 ∧ capDailyXp 140 60 ≤ max 0 (150 - 140)) :=
  ⟨C3_capDailyXp_spec.1 7 (-3) (by decide),
   C3_capDailyXp_spec.2.1 40 25 (by decide),
   C3_capDailyXp_spec.2.2.2.2.2 140 60⟩

/-- C2: each evaluated backfill day behaves as specified — with a completed
count of at least 3 the streak increments and a shield is granted exactly
when the incremented streak is a multiple of 7 and no shield is banked;
otherwise a banked shield is consumed with the streak preserved, or the
streak resets to 0; `longestStreak` is updated to
`max(longestStreak, currentStreak)` after each day.  The evaluator processes
exactly the days `streakWatermark + 1 .. today - 1` in chronological order,
and the concrete 3-day backfill 4/5, 1/5, 5/5 with no shields ends with
`currentStreak = 1` and `longestStreak = 1`. -/
theorem C2_streak_backfill :
    (∀ (completed : Nat) (c l sh : Int), 0 ≤ c → 0 ≤ sh →
        evalStreakDay completed c l sh
          = if 3 ≤ completed then
              (c + 1, max l (c + 1),
                if (c + 1) % 7 = 0 ∧ sh < 1 then sh + 1 else sh)
            else if 0 < sh then (c, max l c, sh - 1)
            else (0, max l 0, sh))
  ∧ (∀ (logs : Int → Option DailyLog) (goals : Option GoalsConfig)
        (today lastEval : Int) (u : StreakUser),
        u.streak_last_evaluated_date = some lastEval → lastEval < today →
        evaluateStreakIfNeeded logs goals today u
          = { streak_last_evaluated_date := some today,
              current_streak := (evalStreakDays logs goals
                  (dateRange (lastEval + 1) (today - 1))
                  (u.current_streak, u.longest_streak, u.streak_shields)).1,
              longest_streak := (evalStreakDays logs goals
                  (dateRange (lastEval + 1) (today - 1))
                  (u.current_streak, u.longest_streak, u.streak_shields)).2.1,
              streak_shields := (evalStreakDays logs goals
                  (dateRange (lastEval + 1) (today - 1))
                  (u.current_streak, u.longest_streak, u.streak_shields)).2.2 })
  ∧ evaluateStreakIfNeeded streakExampleLogs none 4 ⟨some 0, 0, 0, 0⟩
      = ⟨some 4, 1, 1, 0⟩ := by
  refine ⟨?_, ?_, by decide⟩
  · intro completed c l sh hc hsh
    have h1 : 0 < c + 1 := by omega
    simp [evalStreakDay, STREAK_THRESHOLD, SHIELD_STREAK_INTERVAL,
      MAX_SHIELDS, h1]
  · intro logs goals today lastEval u hu hlt
    obtain ⟨w, c, l, sh⟩ := u
    simp only at hu
    subst hu
    simp only [evaluateStreakIfNeeded]
    rw [if_neg (by omega : ¬ today ≤ lastEval)]

theorem C2_streak_backfill_witness :
    evalStreakDay 4 0 0 0 = (1, 1, 0)
      ∧ evaluateStreakIfNeeded streakExampleLogs none 4
          ⟨some 0, 5, 5, 1⟩
          = { streak_last_evaluated_date := some 4,
              current_streak := (evalStreakDays streakExampleLogs none
                  (dateRange (0 + 1) (4 - 1)) (5, 5, 1)).1,
              longest_streak := (evalStreakDays streakExampleLogs none
                  (dateRange (0 + 1) (4 - 1)) (5, 5, 1)).2.1,
              streak_shields := (evalStreakDays streakExampleLogs none
                  (dateRange (0 + 1) (4 - 1)) (5, 5, 1)).2.2 } := by
  constructor
  · rw [C2_streak_backfill.1 4 0 0 0 (by decide) (by decide)]
    decide
  · exact C2_streak_backfill.2.1 streakExampleLogs none 4 0 ⟨some 0, 5, 5, 1⟩
      rfl (by decide)

/-- C10: a date with no daily ledger row counts 0 completed categories, so in
the backfill such a day is a missed day: with a banked shield the shield
count drops by one and the streak is preserved; with none the streak resets
to 0. -/
theorem C10_no_row_day_is_missed :
    (∀ goals : Option GoalsConfig, countCompletedCategories none goals = 0)
  ∧ (∀ (goals : Option GoalsConfig) (c l sh : Int), 0 < sh →
        evalStreakDay (countCompletedCategories none goals) c l sh
          = (c, max l c, sh - 1))
  ∧ (∀ (goals : Option GoalsConfig) (c l : Int),
        evalStreakDay (countCompletedCategories none goals) c l 0
          = (0, max l 0, 0)) := by
  refine ⟨fun _ => rfl, ?_, ?_⟩
  · intro goals c l sh hsh
    simp [countCompletedCategories, evalStreakDay, STREAK_THRESHOLD, hsh]
  · intro goals c l
    simp [countCompletedCategories, evalStreakDay, STREAK_THRESHOLD]

theorem C10_no_row_day_is_missed_witness :
    evalStreakDay (countCompletedCategories none none) 4 6 1
      = (4, max 6 4, 1 - 1) :=
  C10_no_row_day_is_missed.2.1 none 4 6 1 (by decide)

/-! Helper lemmas about the modelled `INSERT OR IGNORE` on badges. -/

theorem insertOrIgnoreBadge_mem (bs : List BadgeRow) (x b : BadgeRow)
    (h : b ∈ bs) : b ∈ insertOrIgnoreBadge bs x := by
  unfold insertOrIgnoreBadge
  split_ifs <;> simp [h]

theorem insertOrIgnoreBadge_hasType (bs : List BadgeRow) (x : BadgeRow) :
    ∃ b ∈ insertOrIgnoreBadge bs x, b.badge_type = x.badge_type := by
  unfold insertOrIgnoreBadge
  split_ifs with h
  · simpa [List.any_eq_true] using h
  · exact ⟨x, by simp⟩

theorem insertOrIgnoreBadge_keepsType (bs : List BadgeRow) (x : BadgeRow)
    (t : String) (h : ∃ b ∈ bs, b.badge_type = t) :
    ∃ b ∈ insertOrIgnoreBadge bs x, b.badge_type = t := by
  obtain ⟨b, hb, ht⟩ := h
  exact ⟨b, insertOrIgnoreBadge_mem bs x b hb, ht⟩

theorem insertOrIgnoreBadge_countP (bs : List BadgeRow) (x : BadgeRow)
    (t : String) (h : ∃ b ∈ bs, b.badge_type = t) :
    (insertOrIgnoreBadge bs x).countP (fun b => decide (b.badge_type = t))
      = bs.countP (fun b => decide (b.badge_type = t)) := by
  unfold insertOrIgnoreBadge
  split_ifs with hany
  · rfl
  · have hxt : x.badge_type ≠ t := by
      intro he
      obtain ⟨b, hb, hbt⟩ := h
      exact hany (by
        simp only [List.any_eq_true]
        exact ⟨b, hb, by simp [hbt, he]⟩)
    rw [List.countP_append]
    simp [hxt]

/-- C6 counterexample: a user with a mascot mapping (BMI category `normal`)
whose `mascot_id` is already the final-stage id 22 gets **no** badge and no
evolution from a level 4 → 11 transition — `checkAndApplyEvolution` returns
early on `newMascot.id === user.mascot_id` — refuting the claim as stated for
every user with a mascot mapping. -/
theorem C6_level_jump_4_to_11_counterexample :
    (checkAndApplyEvolution
        ⟨some .normal, some 22, some "Champion Fox", some 3⟩ [] 4 11).2.1 = []
      ∧ (checkAndApplyEvolution
          ⟨some .normal, some 22, some "Champion Fox", some 3⟩ [] 4 11).2.2
          = none
      ∧ (checkAndApplyEvolution
          ⟨some .normal, some 22, some "Champion Fox", some 3⟩ [] 4 11).1
          = ⟨some .normal, some 22, some "Champion Fox", some 3⟩ := by
  decide

/-- C6 (amended): for any user whose BMI category has a mascot mapping and whose
current mascot is not already the final stage, a single level transition from
4 to 11 grants both the level-5 (`evolution_5`) badge and the level-10
(`champion`) badge, and sets the mascot to the stage-3 (level 10+, final)
variant of the category — never an intermediate stage. -/
theorem C6_level_jump_4_to_11 :
    ∀ (cat : BmiCategory) (u : EvoUser) (badges : List BadgeRow) (m : Mascot),
      u.bmi_category = some cat →
      getMascotForLevel (some cat) 11 = some m →
      u.mascot_id ≠ some m.id →
      (∃ b ∈ (checkAndApplyEvolution u badges 4 11).2.1,
          b.badge_type = "evolution_5")
      ∧ (∃ b ∈ (checkAndApplyEvolution u badges 4 11).2.1,
          b.badge_type = "champion")
      ∧ (checkAndApplyEvolution u badges 4 11).1.mascot_id = some m.id
      ∧ (checkAndApplyEvolution u badges 4 11).1.mascot_stage = some 3
      ∧ m.stage = 3 ∧ getMascotStageForLevel 11 = 2
      ∧ (MASCOT_EVOLUTION cat).get? 2 = some m := by
  intro cat u badges m hu hm hne
  have hstage : m.stage = 3 ∧ (MASCOT_EVOLUTION cat).get? 2 = some m := by
    cases cat <;>
      simp [getMascotForLevel, getMascotStageForLevel, MASCOT_EVOLUTION,
        EVOLUTION_LEVEL_5, EVOLUTION_LEVEL_10] at hm <;>
      simp [MASCOT_EVOLUTION, ← hm]
  have hred : checkAndApplyEvolution u badges 4 11
      = (⟨u.bmi_category, some m.id, some m.name, some m.stage⟩,
         insertOrIgnoreBadge
           (insertOrIgnoreBadge badges ⟨"evolution_5", "Mascot Evolution"⟩)
           ⟨"champion", "Champion"⟩,
         some ⟨u.mascot_id, u.mascot_name, m, "champion", "Champion", 10⟩) := by
    simp [checkAndApplyEvolution, hu, hm, hne, EVOLUTION_LEVEL_5,
      EVOLUTION_LEVEL_10]
  rw [hred]
  refine ⟨?_, ?_, rfl, ?_, hstage.1, rfl, hstage.2⟩
  · exact insertOrIgnoreBadge_keepsType _ _ _
      (insertOrIgnoreBadge_hasType badges ⟨"evolution_5", "Mascot Evolution"⟩)
  · exact insertOrIgnoreBadge_hasType _ ⟨"champion", "Champion"⟩
  · simp [hstage.1]

theorem C6_level_jump_4_to_11_witness :
    (∃ b ∈ (checkAndApplyEvolution
        ⟨some .normal, some 2, some "Energetic Fox", some 1⟩ [] 4 11).2.1,
        b.badge_type = "evolution_5")
      ∧ (∃ b ∈ (checkAndApplyEvolution
          ⟨some .normal, some 2, some "Energetic Fox", some 1⟩ [] 4 11).2.1,
          b.badge_type = "champion")
      ∧ (checkAndApplyEvolution
          ⟨some .normal, some 2, some "Energetic Fox", some 1⟩ [] 4 11).1.mascot_id
          = some (⟨22, "Champion Fox", 3⟩ : Mascot).id
      ∧ (checkAndApplyEvolution
          ⟨some .normal, some 2, some "Energetic Fox", some 1⟩ [] 4 11).1.mascot_stage
          = some 3
      ∧ (⟨22, "Champion Fox", 3⟩ : Mascot).stage = 3
      ∧ getMascotStageForLevel 11 = 2
      ∧ (MASCOT_EVOLUTION .normal).get? 2 = some ⟨22, "Champion Fox", 3⟩ :=
  C6_level_jump_4_to_11 .normal
    ⟨some .normal, some 2, some "Energetic Fox", some 1⟩ [] ⟨22, "Champion Fox", 3⟩
    rfl rfl (by decide)

/-- C7: badge grants are idempotent — the modelled `INSERT OR IGNORE` leaves
the table unchanged when a badge of the same type is already held, and
consequently `checkAndApplyEvolution` never creates a second row for any
badge type the user already holds (the per-type row count is unchanged), and
raises no error. -/
theorem C7_badge_grants_idempotent :
    (∀ (bs : List BadgeRow) (b : BadgeRow),
        (∃ x ∈ bs, x.badge_type = b.badge_type) →
        insertOrIgnoreBadge bs b = bs)
  ∧ (∀ (u : EvoUser) (bs : List BadgeRow) (p n : Nat) (t : String),
        (∃ x ∈ bs, x.badge_type = t) →
        ((checkAndApplyEvolution u bs p n).2.1).countP
            (fun b => decide (b.badge_type = t))
          = bs.countP (fun b => decide (b.badge_type = t))) := by
  constructor
  · intro bs b h
    unfold insertOrIgnoreBadge
    rw [if_pos]
    simp only [List.any_eq_true]
    obtain ⟨x, hx, ht⟩ := h
    exact ⟨x, hx, by simp [ht]⟩
  · intro u bs p n t h
    rcases hbmi : u.bmi_category with _ | cat
    · simp only [checkAndApplyEvolution, hbmi]
      split_ifs <;> rfl
    · rcases hmas : getMascotForLevel (some cat) n with _ | m
      · simp only [checkAndApplyEvolution, hbmi, hmas]
        split_ifs <;> rfl
      · simp only [checkAndApplyEvolution, hbmi, hmas]
        split_ifs <;>
          first
          | rfl
          | rw [insertOrIgnoreBadge_countP _ _ _
                (insertOrIgnoreBadge_keepsType _ _ _ h),
              insertOrIgnoreBadge_countP _ _ _ h]
          | rw [insertOrIgnoreBadge_countP _ _ _ h]

theorem C7_badge_grants_idempotent_witness :
    insertOrIgnoreBadge [⟨"champion", "Champion"⟩] ⟨"champion", "Champion"⟩
        = [⟨"champion", "Champion"⟩]
      ∧ ((checkAndApplyEvolution
          ⟨some .normal, some 2, some "Energetic Fox", some 1⟩
          [⟨"evolution_5", "Mascot Evolution"⟩] 1 6).2.1).countP
            (fun b => decide (b.badge_type = "evolution_5"))
          = ([⟨"evolution_5", "Mascot Evolution"⟩] : List BadgeRow).countP
              (fun b => decide (b.badge_type = "evolution_5")) :=
  ⟨C7_badge_grants_idempotent.1 [⟨"champion", "Champion"⟩]
      ⟨"champion", "Champion"⟩ ⟨⟨"champion", "Champion"⟩, by simp⟩,
   C7_badge_grants_idempotent.2
      ⟨some .normal, some 2, some "Energetic Fox", some 1⟩
      [⟨"evolution_5", "Mascot Evolution"⟩] 1 6 "evolution_5"
      ⟨⟨"evolution_5", "Mascot Evolution"⟩, by simp⟩⟩

/-- C5: within one day the stored hydration high-water mark
(`hydration_xp_glasses`) never decreases — after an accepted update it equals
`max(old mark, glasses)` — and the raw per-glass XP is
`5 × (new mark − old mark)`; consequently the sequence 3 → 5 → 3 glasses from
a fresh day awards 15, then 10, then 0 XP. -/
theorem C5_hydration_high_water_mark :
    (∀ (goals : Option GoalsConfig) (st : HabitsState) (v : Int)
        (st' : HabitsState) (d : Int),
        handleHydrationUpdate goals st v = .ok (st', d) →
        (st.log.map DailyLog.hydration_xp_glasses).getD 0
            ≤ (st'.log.map DailyLog.hydration_xp_glasses).getD 0
          ∧ (st'.log.map DailyLog.hydration_xp_glasses).getD 0
              = max ((st.log.map DailyLog.hydration_xp_glasses).getD 0) v)
  ∧ (∀ prevMark newMark : Int, prevMark ≤ newMark →
        hydrationGlassXpDelta prevMark newMark = 5 * (newMark - prevMark))
  ∧ (hydrationUpdateCore none ⟨none, ⟨0, 1⟩⟩ 3).2 = 15
  ∧ (hydrationUpdateCore none
      (hydrationUpdateCore none ⟨none, ⟨0, 1⟩⟩ 3).1 5).2 = 10
  ∧ (hydrationUpdateCore none
      (hydrationUpdateCore none
        (hydrationUpdateCore none ⟨none, ⟨0, 1⟩⟩ 3).1 5).1 3).2 = 0 := by
  refine ⟨?_, ?_, by decide, by decide, by decide⟩
  · intro goals st v st' d hok
    rw [handleHydrationUpdate] at hok
    split_ifs at hok
    simp only [Except.ok.injEq] at hok
    have h1 : st' = (hydrationUpdateCore goals st v).1 := by rw [hok]
    subst h1
    obtain ⟨log?, u⟩ := st
    cases log? <;>
      simp [hydrationUpdateCore, hydrationGlassXpDelta] <;>
      exact ⟨le_max_left _ _, rfl⟩
  · intro prevMark newMark h
    unfold hydrationGlassXpDelta HYDRATION_GLASS_XP
    omega

theorem C5_hydration_high_water_mark_witness :
    ((hydrationUpdateCore none ⟨none, ⟨0, 1⟩⟩ 4).1.log.map
          DailyLog.hydration_xp_glasses).getD 0
        = max ((⟨none, ⟨0, 1⟩⟩ : HabitsState).log.map
            DailyLog.hydration_xp_glasses).getD 0 4
      ∧ hydrationGlassXpDelta 3 5 = 5 * (5 - 3) :=
  ⟨(C5_hydration_high_water_mark.1 none ⟨none, ⟨0, 1⟩⟩ 4
      (hydrationUpdateCore none ⟨none, ⟨0, 1⟩⟩ 4).1 20 rfl).2,
   C5_hydration_high_water_mark.2.1 3 5 (by decide)⟩

/-- C8: the manual-steps +5 bonus fires exactly when the manual count rises
by at least 500 over the stored manual count and at least two hours (in ms)
have passed since the stored last-bonus timestamp, and the timestamp is
refreshed exactly when the bonus fires; hence from a fresh day with a
10,000-step goal, manual updates 600 → 1200 (1 h later) → 1800 (3 h after the first)
award the bonus, then nothing, then the bonus again. -/
theorem C8_steps_manual_bonus_cooldown :
    (∀ (source : StepSource) (steps prevManual : Int)
        (lastBonusAt : Option Int) (nowMs : Int),
        stepsBonusUpdate source steps prevManual lastBonusAt nowMs
          = if source = .manual ∧ 500 ≤ steps - prevManual
                ∧ 7200000 ≤ nowMs - lastBonusAt.getD 0
            then (5, some nowMs)
            else (0, lastBonusAt))
  ∧ (stepsUpdateCore (some ⟨10000, 8⟩) ⟨none, ⟨0, 1⟩⟩
      600 .manual 10000000000).2 = 5
  ∧ (stepsUpdateCore (some ⟨10000, 8⟩)
      (stepsUpdateCore (some ⟨10000, 8⟩) ⟨none, ⟨0, 1⟩⟩
        600 .manual 10000000000).1
      1200 .manual 10003600000).2 = 0
  ∧ (stepsUpdateCore (some ⟨10000, 8⟩)
      (stepsUpdateCore (some ⟨10000, 8⟩)
        (stepsUpdateCore (some ⟨10000, 8⟩) ⟨none, ⟨0, 1⟩⟩
          600 .manual 10000000000).1
        1200 .manual 10003600000).1
      1800 .manual 10010800000).2 = 5 := by
  refine ⟨?_, by decide, by decide, by decide⟩
  intro source steps prevManual lastBonusAt nowMs
  cases source <;>
    simp [stepsBonusUpdate, STEP_BONUS_INCREMENT, STEP_BONUS_XP,
      TWO_HOURS_MS] <;>
    split_ifs <;> simp_all <;> omega

theorem C8_steps_manual_bonus_cooldown_witness :
    stepsBonusUpdate .manual 600 0 none 10000000000
        = if (StepSource.manual = .manual ∧ 500 ≤ (600 : Int) - 0
              ∧ 7200000 ≤ (10000000000 : Int) - (none : Option Int).getD 0)
          then (5, some 10000000000)
          else (0, none) :=
  C8_steps_manual_bonus_cooldown.1 .manual 600 0 none 10000000000

/-- C9: the level table starts `0, 500, 1200`; `getLevelForXp` is monotone in
`xp`; `getLevelForXp 0 = 1`, `500 ↦ 2`, `1199 ↦ 2`, `1200 ↦ 3`; and for every
non-negative `xp` the returned level is the highest level `L` (within the
100-level table) whose threshold `LEVEL_THRESHOLDS[L-1]` is `≤ xp`. -/
theorem C9_getLevelForXp_spec :
    LEVEL_THRESHOLDS.take 3 = [0, 500, 1200]
  ∧ (getLevelForXp 0 = 1 ∧ getLevelForXp 500 = 2
      ∧ getLevelForXp 1199 = 2 ∧ getLevelForXp 1200 = 3)
  ∧ (∀ xp xp' : Int, xp ≤ xp' → getLevelForXp xp ≤ getLevelForXp xp')
  ∧ (∀ xp : Int, 0 ≤ xp →
      1 ≤ getLevelForXp xp
      ∧ getLevelForXp xp ≤ LEVEL_THRESHOLDS.length
      ∧ (LEVEL_THRESHOLDS.getD (getLevelForXp xp - 1) 0 : Int) ≤ xp
      ∧ ∀ L : Nat, 1 ≤ L → L ≤ LEVEL_THRESHOLDS.length →
          (LEVEL_THRESHOLDS.getD (L - 1) 0 : Int) ≤ xp → L ≤ getLevelForXp xp) := by
  have hlen : (LEVEL_THRESHOLDS.drop 1).length = 99 := by decide
  refine ⟨by decide, ⟨by decide, by decide, by decide, by decide⟩, ?_, ?_⟩
  · intro xp xp' h
    rw [getLevelForXp, getLevelForXp, getLevelForXpAux_eq, getLevelForXpAux_eq]
    have := takeWhileReached_length_mono xp xp' h (LEVEL_THRESHOLDS.drop 1)
    omega
  · intro xp hxp
    set D := LEVEL_THRESHOLDS.drop 1 with hD
    set p := (D.takeWhile (thresholdReached xp)).length with hp
    have hform : getLevelForXp xp = 1 + p := by
      rw [getLevelForXp, getLevelForXpAux_eq]
    have hple : p ≤ 99 := by
      have : p ≤ D.length := (List.takeWhile_sublist _).length_le
      omega
    have hDsorted : D.Pairwise (fun a b : Nat => a < b) := by
      have := LEVEL_THRESHOLDS_pairwise
      exact this.sublist (List.drop_sublist 1 _)
    refine ⟨by omega, by rw [LEVEL_THRESHOLDS_length]; omega, ?_, ?_⟩
    · rcases Nat.eq_zero_or_pos p with h0 | hpos
      · have : LEVEL_THRESHOLDS.getD 0 0 = 0 := by decide
        rw [hform, h0]
        simpa [this] using hxp
      · have hidx : getLevelForXp xp - 1 = (p - 1) + 1 := by omega
        rw [hidx, ← dropOne_getD, ← hD]
        exact takeWhileReached_getD xp D (p - 1) (by omega)
    · intro L hL1 hL100 hLthr
      by_contra hcon
      push_neg at hcon
      rw [hform] at hcon
      -- so L ≥ p + 2; the entry at index L - 2 of D fails the predicate
      rw [LEVEL_THRESHOLDS_length] at hL100
      have hpD : p < D.length := by omega
      have hbound := takeWhileReached_boundary xp D hpD
      rw [← hp] at hbound
      have hidx : L - 1 = (L - 2) + 1 := by omega
      rw [hidx, ← dropOne_getD, ← hD] at hLthr
      rcases Nat.eq_or_lt_of_le (show p ≤ L - 2 by omega) with heq | hlt
      · rw [← heq] at hLthr
        exact hbound hLthr
      · have hL2 : L - 2 < D.length := by omega
        have hmono := (List.pairwise_iff_getElem.mp hDsorted) p (L - 2) hpD hL2 hlt
        have hgp : D.getD p 0 = D[p] := List.getD_eq_getElem D 0 hpD
        have hgL : D.getD (L - 2) 0 = D[L - 2] := List.getD_eq_getElem D 0 hL2
        apply hbound
        rw [hgp]
        have : (D[p] : Int) ≤ (D[L - 2] : Int) := by exact_mod_cast le_of_lt hmono
        calc (D[p] : Int) ≤ (D[L - 2] : Int) := this
          _ ≤ xp := by rw [← hgL]; exact hLthr

/-! Helper lemmas: every handler keeps the day's `xp_earned` at or below the
cap, because the raw delta is clamped by `capDailyXp` before being added. -/

theorem movement_ledger_le (st : HabitsState) (v : Bool)
    (h : ledgerXp st ≤ 150) :
    ledgerXp (handleMovementUpdate st v).1 ≤ 150 := by
  obtain ⟨log?, user⟩ := st
  cases log? <;>
    simp [handleMovementUpdate, ledgerXp, capDailyXp, DAILY_XP_CAP,
      MOVEMENT_XP] at * <;>
    split_ifs at * <;> omega

theorem hydration_ledger_le (goals : Option GoalsConfig) (st : HabitsState)
    (v : Int) (h : ledgerXp st ≤ 150) :
    ledgerXp (hydrationUpdateCore goals st v).1 ≤ 150 := by
  obtain ⟨log?, user⟩ := st
  cases log? <;>
    simp [hydrationUpdateCore, hydrationGlassXpDelta, ledgerXp, capDailyXp,
      DAILY_XP_CAP, HYDRATION_GLASS_XP, HYDRATION_GOAL_BONUS_XP] at * <;>
    split_ifs at * <;> omega

theorem sleep_ledger_le (st : HabitsState) (s e : Option Nat)
    (h : ledgerXp st ≤ 150) :
    ledgerXp (sleepUpdateCore st s e).1 ≤ 150 := by
  obtain ⟨log?, user⟩ := st
  cases log? <;>
    simp [sleepUpdateCore, ledgerXp, capDailyXp, DAILY_XP_CAP,
      SLEEP_LOG_XP, SLEEP_GOAL_BONUS_XP] at * <;>
    split_ifs at * <;> omega

theorem food_ledger_le (st : HabitsState) (item : FoodItem) (c : Bool)
    (h : ledgerXp st ≤ 150) :
    ledgerXp (handleFoodUpdate st item c).1 ≤ 150 := by
  obtain ⟨log?, user⟩ := st
  cases log? <;> cases item <;>
    simp [handleFoodUpdate, foodItemXp, foodXpAwarded, setFoodFields,
      ledgerXp, capDailyXp, DAILY_XP_CAP] at * <;>
    split_ifs at * <;> omega

theorem steps_ledger_le (goals : Option GoalsConfig) (st : HabitsState)
    (v : Int) (src : StepSource) (now : Int) (h : ledgerXp st ≤ 150) :
    ledgerXp (stepsUpdateCore goals st v src now).1 ≤ 150 := by
  obtain ⟨log?, user⟩ := st
  cases log? <;> cases src <;>
    simp [stepsUpdateCore, stepsBonusUpdate, ledgerXp, capDailyXp,
      DAILY_XP_CAP, STEP_BONUS_XP, STEP_BONUS_INCREMENT, TWO_HOURS_MS] at * <;>
    split_ifs at * <;> omega

theorem applyOp_ledger_le (goals : Option GoalsConfig) (st : HabitsState)
    (op : HabitOp) (st' : HabitsState) (d : Int) (h : ledgerXp st ≤ 150)
    (hok : applyOp goals st op = .ok (st', d)) : ledgerXp st' ≤ 150 := by
  cases op with
  | steps v src now =>
    rw [applyOp, handleStepsUpdate] at hok
    split_ifs at hok
    simp only [Except.ok.injEq] at hok
    have h1 : st' = (stepsUpdateCore goals st v src now).1 := by rw [hok]
    rw [h1]
    exact steps_ledger_le goals st v src now h
  | hydration v =>
    rw [applyOp, handleHydrationUpdate] at hok
    split_ifs at hok
    simp only [Except.ok.injEq] at hok
    have h1 : st' = (hydrationUpdateCore goals st v).1 := by rw [hok]
    rw [h1]
    exact hydration_ledger_le goals st v h
  | sleep s e =>
    rw [applyOp, handleSleepUpdate] at hok
    split_ifs at hok
    simp only [Except.ok.injEq] at hok
    have h1 : st' = (sleepUpdateCore st s e).1 := by rw [hok]
    rw [h1]
    exact sleep_ledger_le st s e h
  | movement v =>
    rw [applyOp] at hok
    simp only [Except.ok.injEq] at hok
    have h1 : st' = (handleMovementUpdate st v).1 := by rw [hok]
    rw [h1]
    exact movement_ledger_le st v h
  | food item c =>
    rw [applyOp] at hok
    simp only [Except.ok.injEq] at hok
    have h1 : st' = (handleFoodUpdate st item c).1 := by rw [hok]
    rw [h1]
    exact food_ledger_le st item c h

/-- C1: the daily ledger's `xp_earned` stays at or below `DAILY_XP_CAP = 150`
across category updates: any single accepted update from a state with
`xp_earned ≤ 150` ends with `xp_earned ≤ 150` (every raw delta passes through
`capDailyXp` before being added), and hence any sequence of steps / hydration
/ sleep / movement / food updates preserves the bound. -/
theorem C1_xp_earned_within_daily_cap :
    (∀ (goals : Option GoalsConfig) (st : HabitsState) (op : HabitOp)
        (st' : HabitsState) (d : Int),
        ledgerXp st ≤ 150 → applyOp goals st op = .ok (st', d) →
        ledgerXp st' ≤ 150)
  ∧ (∀ (goals : Option GoalsConfig) (ops : List HabitOp) (st : HabitsState),
        ledgerXp st ≤ 150 → ledgerXp (runOps goals ops st) ≤ 150) := by
  refine ⟨applyOp_ledger_le, ?_⟩
  intro goals ops
  induction ops with
  | nil => intro st h; simpa [runOps] using h
  | cons op rest ih =>
    intro st h
    rw [runOps]
    cases hok : applyOp goals st op with
    | ok p => exact ih _ (applyOp_ledger_le goals st op p.1 p.2 h (by rw [hok]))
    | error err => exact ih _ h

theorem C1_xp_earned_within_daily_cap_witness :
    ledgerXp ((handleMovementUpdate ⟨none, ⟨0, 1⟩⟩ true).1) ≤ 150
      ∧ ledgerXp (runOps none
          [.movement true, .hydration 5, .food .breakfast true] ⟨none, ⟨0, 1⟩⟩)
          ≤ 150 :=
  ⟨C1_xp_earned_within_daily_cap.1 none ⟨none, ⟨0, 1⟩⟩ (.movement true) _ _
      (by decide) rfl,
   C1_xp_earned_within_daily_cap.2 none
      [.movement true, .hydration 5, .food .breakfast true] ⟨none, ⟨0, 1⟩⟩
      (by decide)⟩

/-! Helper lemmas for duplicate-submission idempotency (C4): a state whose
stored values already absorb the incoming input is returned unchanged with a
zero XP delta, and every handler's output state absorbs its own input. -/

theorem hydration_absorbed (goals : Option GoalsConfig) (l : DailyLog)
    (u : User) (v : Int)
    (hmark : v ≤ l.hydration_xp_glasses)
    (hflag : (goals.map GoalsConfig.hydration_glasses).getD 8 ≤ v →
      l.hydration_goal_xp_awarded ≠ 0)
    (hglass : l.hydration_glasses = some v) :
    hydrationUpdateCore goals ⟨some l, u⟩ v = (⟨some l, u⟩, 0) := by
  have hmax : max l.hydration_xp_glasses v = l.hydration_xp_glasses :=
    max_eq_left hmark
  have hcond : ¬((goals.map GoalsConfig.hydration_glasses).getD 8 ≤ v
      ∧ l.hydration_goal_xp_awarded = 0) := by
    rintro ⟨hg, h0⟩; exact hflag hg h0
  have hcond2 : ¬(l.hydration_goal_xp_awarded = 1
      ∧ l.hydration_goal_xp_awarded = 0) := by omega
  simp only [hydrationUpdateCore, hydrationGlassXpDelta, Option.map_some',
    Option.getD_some, hmax, if_neg hcond, if_neg hcond2,
    sub_self, max_self, mul_zero, zero_mul, add_zero, zero_add,
    capDailyXp, DAILY_XP_CAP]
  norm_num
  rw [← hglass]

theorem hydration_idem (goals : Option GoalsConfig) (st : HabitsState)
    (v : Int) :
    hydrationUpdateCore goals (hydrationUpdateCore goals st v).1 v
      = ((hydrationUpdateCore goals st v).1, 0) := by
  obtain ⟨log?, user⟩ := st
  obtain ⟨l₁, u₁, heq, h1, h2, h3⟩ :
      ∃ l₁ u₁, (hydrationUpdateCore goals ⟨log?, user⟩ v).1 = ⟨some l₁, u₁⟩
        ∧ l₁.hydration_glasses = some v
        ∧ v ≤ l₁.hydration_xp_glasses
        ∧ ((goals.map GoalsConfig.hydration_glasses).getD 8 ≤ v →
            l₁.hydration_goal_xp_awarded ≠ 0) := by
    refine ⟨_, _, rfl, rfl, le_max_right _ _, ?_⟩
    intro hg
    simp only [hydrationUpdateCore]
    split_ifs <;> simp_all <;> omega
  rw [heq]
  exact hydration_absorbed goals l₁ u₁ v h2 h3 h1

theorem movement_idem (st : HabitsState) (v : Bool) :
    handleMovementUpdate (handleMovementUpdate st v).1 v
      = ((handleMovementUpdate st v).1, 0) := by
  obtain ⟨log?, user⟩ := st
  cases log? with
  | none =>
    by_cases hv : v <;>
      simp [handleMovementUpdate, capDailyXp, DAILY_XP_CAP, MOVEMENT_XP,
        applyXpToUser, hv, Int.min_def, Int.max_def]
  | some l =>
    by_cases hv : v <;> by_cases hp : l.movement_xp_awarded = 0 <;>
      by_cases hd : l.xp_earned < 150 <;>
      simp [handleMovementUpdate, capDailyXp, DAILY_XP_CAP, MOVEMENT_XP,
        applyXpToUser, hv, hp, hd, Int.min_def, Int.max_def] <;>
      split_ifs <;> simp_all <;> omega

theorem food_idem (st : HabitsState) (item : FoodItem) (c : Bool) :
    handleFoodUpdate (handleFoodUpdate st item c).1 item c
      = ((handleFoodUpdate st item c).1, 0) := by
  obtain ⟨log?, user⟩ := st
  cases log? with
  | none =>
    cases item <;> by_cases hv : c <;>
      simp [handleFoodUpdate, foodItemXp, foodXpAwarded, setFoodFields,
        capDailyXp, DAILY_XP_CAP, applyXpToUser, hv, Int.min_def, Int.max_def]
  | some l =>
    by_cases hv : c <;> by_cases hp : foodXpAwarded l item = 0 <;>
      by_cases hd : l.xp_earned < 150 <;> cases item <;>
      simp_all [handleFoodUpdate, foodItemXp, foodXpAwarded, setFoodFields,
        capDailyXp, DAILY_XP_CAP, applyXpToUser, Int.min_def, Int.max_def] <;>
      split_ifs <;> simp_all <;> omega

theorem sleep_absorbed (l : DailyLog) (u : User) (s e : Option Nat)
    (hs : (s <|> l.sleep_start) = l.sleep_start)
    (he : (e <|> l.sleep_end) = l.sleep_end)
    (hh : (computeSleepHours l.sleep_start l.sleep_end).isSome →
      computeSleepHours l.sleep_start l.sleep_end = l.sleep_hours_tenths)
    (hfs : l.sleep_start.isSome → l.sleep_xp_start_awarded ≠ 0)
    (hfe : l.sleep_end.isSome → l.sleep_xp_end_awarded ≠ 0)
    (hfg : (computeSleepHours l.sleep_start l.sleep_end).any
        (fun h => decide (SLEEP_GOAL_HOURS * 10 ≤ h)) = true →
      l.sleep_goal_xp_awarded ≠ 0) :
    sleepUpdateCore ⟨some l, u⟩ s e = (⟨some l, u⟩, 0) := by
  have hcs : ¬((s <|> l.sleep_start).isSome ∧ l.sleep_xp_start_awarded = 0) := by
    rw [hs]; rintro ⟨h1, h2⟩; exact hfs h1 h2
  have hce : ¬((e <|> l.sleep_end).isSome ∧ l.sleep_xp_end_awarded = 0) := by
    rw [he]; rintro ⟨h1, h2⟩; exact hfe h1 h2
  have hcg : ¬((computeSleepHours (s <|> l.sleep_start) (e <|> l.sleep_end)).any
      (fun h => decide (SLEEP_GOAL_HOURS * 10 ≤ h)) = true
      ∧ l.sleep_goal_xp_awarded = 0) := by
    rw [hs, he]; rintro ⟨h1, h2⟩; exact hfg h1 h2
  have c1 : ¬(l.sleep_xp_start_awarded = 1 ∧ l.sleep_xp_start_awarded = 0) := by
    omega
  have c2 : ¬(l.sleep_xp_end_awarded = 1 ∧ l.sleep_xp_end_awarded = 0) := by
    omega
  have c3 : ¬(l.sleep_goal_xp_awarded = 1 ∧ l.sleep_goal_xp_awarded = 0) := by
    omega
  simp only [sleepUpdateCore, Option.map_some', Option.getD_some,
    Option.bind_some, Option.some_bind, if_neg hcs, if_neg hce, if_neg hcg,
    if_neg c1, if_neg c2, if_neg c3, add_zero, zero_add, capDailyXp,
    DAILY_XP_CAP]
  norm_num
  rw [hs, he]
  by_cases h1 : (computeSleepHours l.sleep_start l.sleep_end).isSome
  · rw [if_pos h1, hh h1, ite_self, ite_self]
  · rw [if_neg h1, ite_self, ite_self]

theorem sleep_idem (st : HabitsState) (s e : Option Nat) :
    sleepUpdateCore (sleepUpdateCore st s e).1 s e
      = ((sleepUpdateCore st s e).1, 0) := by
  obtain ⟨log?, user⟩ := st
  obtain ⟨l₁, u₁, heq, hs, he, hh, hfs, hfe, hfg⟩ :
      ∃ l₁ u₁, (sleepUpdateCore ⟨log?, user⟩ s e).1 = ⟨some l₁, u₁⟩
        ∧ (s <|> l₁.sleep_start) = l₁.sleep_start
        ∧ (e <|> l₁.sleep_end) = l₁.sleep_end
        ∧ ((computeSleepHours l₁.sleep_start l₁.sleep_end).isSome →
            computeSleepHours l₁.sleep_start l₁.sleep_end
              = l₁.sleep_hours_tenths)
        ∧ (l₁.sleep_start.isSome → l₁.sleep_xp_start_awarded ≠ 0)
        ∧ (l₁.sleep_end.isSome → l₁.sleep_xp_end_awarded ≠ 0)
        ∧ ((computeSleepHours l₁.sleep_start l₁.sleep_end).any
            (fun h => decide (SLEEP_GOAL_HOURS * 10 ≤ h)) = true →
            l₁.sleep_goal_xp_awarded ≠ 0) := by
    refine ⟨_, _, rfl, ?_, ?_, ?_, ?_, ?_, ?_⟩
    · cases log? <;> cases s <;> simp [sleepUpdateCore]
    · cases log? <;> cases e <;> simp [sleepUpdateCore]
    · cases log? <;> cases s <;> cases e <;> simp [sleepUpdateCore] <;>
        intro h <;> (try simp [h]) <;> (try split_ifs at *) <;>
        (try simp_all) <;> omega
    · cases log? <;> cases s <;> cases e <;> simp [sleepUpdateCore] <;>
        intro h <;> (try simp [h]) <;> (try split_ifs at *) <;>
        (try simp_all) <;> omega
    · cases log? <;> cases s <;> cases e <;> simp [sleepUpdateCore] <;>
        intro h <;> (try simp [h]) <;> (try split_ifs at *) <;>
        (try simp_all) <;> omega
    · cases log? <;> cases s <;> cases e <;> simp [sleepUpdateCore] <;>
        intro h <;> (try simp [h]) <;> (try split_ifs at *) <;>
        (try simp_all) <;> omega
  rw [heq]
  exact sleep_absorbed l₁ u₁ s e hs he hh hfs hfe hfg

theorem steps_absorbed (goals : Option GoalsConfig) (l : DailyLog) (u : User)
    (steps : Int) (source : StepSource) (now2 : Int)
    (hsrc : (match source with
      | .manual => l.steps_manual
      | .google_fit => l.steps_google_fit) = some steps)
    (heff : l.steps
      = some (max (l.steps_manual.getD 0) (l.steps_google_fit.getD 0)))
    (hflag : (goals.map GoalsConfig.daily_steps).getD 10000
        ≤ max (l.steps_manual.getD 0) (l.steps_google_fit.getD 0) →
      l.steps_goal_xp_awarded ≠ 0) :
    stepsUpdateCore goals ⟨some l, u⟩ steps source now2 = (⟨some l, u⟩, 0) := by
  have hc2 : ¬(l.steps_goal_xp_awarded = 1 ∧ l.steps_goal_xp_awarded = 0) := by
    omega
  cases source with
  | manual =>
    simp only at hsrc
    have hget : l.steps_manual.getD 0 = steps := by rw [hsrc]; rfl
    have hc1 : ¬((goals.map GoalsConfig.daily_steps).getD 10000
        ≤ max steps (l.steps_google_fit.getD 0)
        ∧ l.steps_goal_xp_awarded = 0) := by
      rintro ⟨h1, h2⟩
      refine hflag ?_ h2
      rw [hget]
      exact h1
    simp only [stepsUpdateCore, stepsBonusUpdate, Option.map_some',
      Option.getD_some, Option.some_bind, hsrc, hget, if_neg hc1, if_neg hc2,
      sub_self, STEP_BONUS_INCREMENT, STEP_BONUS_XP, TWO_HOURS_MS,
      add_zero, zero_add, capDailyXp, DAILY_XP_CAP]
    norm_num
    rw [show some steps = l.steps_manual from hsrc.symm, ← hget, ← heff]
  | google_fit =>
    simp only at hsrc
    have hget : l.steps_google_fit.getD 0 = steps := by rw [hsrc]; rfl
    have hc1 : ¬((goals.map GoalsConfig.daily_steps).getD 10000
        ≤ max (l.steps_manual.getD 0) steps
        ∧ l.steps_goal_xp_awarded = 0) := by
      rintro ⟨h1, h2⟩
      refine hflag ?_ h2
      rw [hget]
      exact h1
    simp only [stepsUpdateCore, stepsBonusUpdate, Option.map_some',
      Option.getD_some, Option.some_bind, hsrc, hget, if_neg hc1, if_neg hc2,
      add_zero, zero_add, capDailyXp, DAILY_XP_CAP]
    norm_num
    rw [show some steps = l.steps_google_fit from hsrc.symm, ← hget, ← heff]

theorem steps_idem (goals : Option GoalsConfig) (st : HabitsState)
    (v : Int) (src : StepSource) (now1 now2 : Int) :
    stepsUpdateCore goals (stepsUpdateCore goals st v src now1).1 v src now2
      = ((stepsUpdateCore goals st v src now1).1, 0) := by
  obtain ⟨log?, user⟩ := st
  obtain ⟨l₁, u₁, heq, h1, h2, h3⟩ :
      ∃ l₁ u₁, (stepsUpdateCore goals ⟨log?, user⟩ v src now1).1 = ⟨some l₁, u₁⟩
        ∧ (match src with
            | .manual => l₁.steps_manual
            | .google_fit => l₁.steps_google_fit) = some v
        ∧ l₁.steps
            = some (max (l₁.steps_manual.getD 0) (l₁.steps_google_fit.getD 0))
        ∧ ((goals.map GoalsConfig.daily_steps).getD 10000
            ≤ max (l₁.steps_manual.getD 0) (l₁.steps_google_fit.getD 0) →
            l₁.steps_goal_xp_awarded ≠ 0) := by
    refine ⟨_, _, rfl, ?_, ?_, ?_⟩
    · cases log? <;> cases src <;> simp [stepsUpdateCore, stepsBonusUpdate]
    · cases log? <;> cases src <;> simp [stepsUpdateCore, stepsBonusUpdate]
    · cases log? <;> cases src <;> simp [stepsUpdateCore, stepsBonusUpdate] <;>
        intro h <;> (try simp [h]) <;> (try split_ifs at *) <;>
        (try simp_all) <;> omega
  rw [heq]
  exact steps_absorbed goals l₁ u₁ v src now2 h1 h2 h3

/-- C4: duplicate submissions are zero-effect no-ops, never errors.  For
every category handler, re-submitting the identical accepted input on the
same day returns exactly the state produced by the first call (so `xp_total`,
`level`, `xp_earned` and every award flag are unchanged) together with an XP
delta of 0; for the fallible handlers the second call is again `.ok`, not an
error.  This covers every one-shot award: movement done, the three food
checkboxes, sleep start/end logs and the 7-hour sleep goal, the steps goal,
and the hydration goal bonus. -/
theorem C4_duplicate_submission_is_noop :
    (∀ (st : HabitsState) (v : Bool) (st₁ : HabitsState) (d₁ : Int),
        handleMovementUpdate st v = (st₁, d₁) →
        handleMovementUpdate st₁ v = (st₁, 0))
  ∧ (∀ (st : HabitsState) (item : FoodItem) (c : Bool) (st₁ : HabitsState)
        (d₁ : Int),
        handleFoodUpdate st item c = (st₁, d₁) →
        handleFoodUpdate st₁ item c = (st₁, 0))
  ∧ (∀ (goals : Option GoalsConfig) (st : HabitsState) (v : Int)
        (st₁ : HabitsState) (d₁ : Int),
        handleHydrationUpdate goals st v = .ok (st₁, d₁) →
        handleHydrationUpdate goals st₁ v = .ok (st₁, 0))
  ∧ (∀ (st : HabitsState) (s e : Option Nat) (st₁ : HabitsState) (d₁ : Int),
        handleSleepUpdate st s e = .ok (st₁, d₁) →
        handleSleepUpdate st₁ s e = .ok (st₁, 0))
  ∧ (∀ (goals : Option GoalsConfig) (st : HabitsState) (v : Int)
        (src : StepSource) (now1 now2 : Int) (st₁ : HabitsState) (d₁ : Int),
        handleStepsUpdate goals st v src now1 = .ok (st₁, d₁) →
        handleStepsUpdate goals st₁ v src now2 = .ok (st₁, 0)) := by
  refine ⟨?_, ?_, ?_, ?_, ?_⟩
  · intro st v st₁ d₁ hok
    have h1 : st₁ = (handleMovementUpdate st v).1 := by rw [hok]
    rw [h1]
    exact movement_idem st v
  · intro st item c st₁ d₁ hok
    have h1 : st₁ = (handleFoodUpdate st item c).1 := by rw [hok]
    rw [h1]
    exact food_idem st item c
  · intro goals st v st₁ d₁ hok
    rw [handleHydrationUpdate] at hok ⊢
    split_ifs at hok ⊢
    simp only [Except.ok.injEq] at hok ⊢
    have h1 : st₁ = (hydrationUpdateCore goals st v).1 := by rw [hok]
    rw [h1]
    exact hydration_idem goals st v
  · intro st s e st₁ d₁ hok
    rw [handleSleepUpdate] at hok ⊢
    split_ifs at hok ⊢
    simp only [Except.ok.injEq] at hok ⊢
    have h1 : st₁ = (sleepUpdateCore st s e).1 := by rw [hok]
    rw [h1]
    exact sleep_idem st s e
  · intro goals st v src now1 now2 st₁ d₁ hok
    rw [handleStepsUpdate] at hok ⊢
    split_ifs at hok ⊢
    simp only [Except.ok.injEq] at hok ⊢
    have h1 : st₁ = (stepsUpdateCore goals st v src now1).1 := by rw [hok]
    rw [h1]
    exact steps_idem goals st v src now1 now2

theorem C4_duplicate_submission_is_noop_witness :
    handleMovementUpdate (handleMovementUpdate ⟨none, ⟨0, 1⟩⟩ true).1 true
        = ((handleMovementUpdate ⟨none, ⟨0, 1⟩⟩ true).1, 0)
      ∧ handleHydrationUpdate none
          (hydrationUpdateCore none ⟨none, ⟨0, 1⟩⟩ 8).1 8
          = .ok ((hydrationUpdateCore none ⟨none, ⟨0, 1⟩⟩ 8).1, 0) :=
  ⟨C4_duplicate_submission_is_noop.1 ⟨none, ⟨0, 1⟩⟩ true
      (handleMovementUpdate ⟨none, ⟨0, 1⟩⟩ true).1 15 rfl,
   C4_duplicate_submission_is_noop.2.2.1 none ⟨none, ⟨0, 1⟩⟩ 8
      (hydrationUpdateCore none ⟨none, ⟨0, 1⟩⟩ 8).1 60 rfl⟩

theorem C9_getLevelForXp_spec_witness :
    getLevelForXp 100 ≤ getLevelForXp 600
      ∧ (1 ≤ getLevelForXp 1300 ∧ getLevelForXp 1300 ≤ LEVEL_THRESHOLDS.length
          ∧ (LEVEL_THRESHOLDS.getD (getLevelForXp 1300 - 1) 0 : Int) ≤ 1300
          ∧ ∀ L : Nat, 1 ≤ L → L ≤ LEVEL_THRESHOLDS.length →
              (LEVEL_THRESHOLDS.getD (L - 1) 0 : Int) ≤ 1300 →
              L ≤ getLevelForXp 1300) :=
  ⟨C9_getLevelForXp_spec.2.2.1 100 600 (by decide),
   C9_getLevelForXp_spec.2.2.2 1300 (by decide)⟩

end LifePush
